import Mathlib

/-!
Shallow embedding of the AML decision pipeline of
src/app/agents/production_workflow.py, of the pattern-detection tools of
src/app/agents/tools/production_analysis_tools.py, and of the batch loop of
src/app/services/batch_processor.py.

Modelling conventions:
* Python dict lookups d.get(k, default) on possibly-missing keys become
  Option fields read with Option.getD; a dict key that is absent is none.
* Monetary amounts, scores and variances that are Python floats are modelled
  as exact rationals (Rat).
* Timestamps become integers counted in seconds; (a - b).days < 1 on aware
  datetimes is equivalent to the signed difference in seconds being < 86400,
  because Python timedelta floors its days field (also for negative values).
* Calls into the LLM return free-form text from which the workflow extracts
  uppercase risk codes by regex; those code lists are opaque inputs and are
  supplied by an Oracle record, as are the wall clock and the generated case
  id.  The narrative fields kept in llm_analysis feed no modelled logic and
  are omitted from the state.
-/

namespace AMLSpec

/-- Sequence containment on lists: does the second list occur as a prefix of
the first?  Helper for the substring test below. -/
def listStartsWith {α : Type} [DecidableEq α] : List α → List α → Bool
  | _, [] => true
  | [], _ :: _ => false
  | a :: as, b :: bs => a = b && listStartsWith as bs

/-- Does needle occur as a contiguous subsequence of hay? -/
def listContainsSeq {α : Type} [DecidableEq α] (hay needle : List α) : Bool :=
  match hay with
  | [] => needle.isEmpty
  | _ :: t => listStartsWith hay needle || listContainsSeq t needle

/-- The Python substring test needle in hay, on the character lists of the
two strings. -/
def containsSub (needle hay : String) : Bool :=
  listContainsSeq hay.toList needle.toList

/-- Python str.lower, character by character (the compared data is
ASCII). -/
def lowerString (s : String) : String :=
  String.mk (s.data.map Char.toLower)

/-! ## Configuration (production_workflow.py lines 44-66) -/

/-- High-risk jurisdiction list HIGH_RISK_COUNTRIES. -/
def HIGH_RISK_COUNTRIES : List String :=
  ["AF", "IR", "KP", "SY", "VE", "CU", "BY", "MM", "ZW", "RU"]

/-- Tax-haven jurisdiction list TAX_HAVENS. -/
def TAX_HAVENS : List String :=
  ["KY", "VG", "BM", "PA", "MT", "AE", "LI", "MC", "AN"]

/-- Sanctioned-entity substrings SANCTIONED_ENTITIES. -/
def SANCTIONED_ENTITIES : List String :=
  ["narcotics_cartel_xyz", "terror_group_abc", "sanctioned_russian_bank",
   "hezbollah_front_company", "isis_financial_network"]

/-- Darknet market names DARKNET_MARKETS. -/
def DARKNET_MARKETS : List String :=
  ["AlphaMarket", "Dark0d3", "Hydra", "Silk_Road_Reborn", "Dream_Market"]

/-- Flagged banks HIGH_RISK_BANKS for the HI-Small_Trans dataset. -/
def HIGH_RISK_BANKS : List String := ["03208", "03209", "0211050", "0245335"]

/-- Currency Transaction Report threshold CTR_THRESHOLD (10000.0). -/
def CTR_THRESHOLD : Rat := 10000

/-- Seconds in a day, used to translate timedelta.days comparisons. -/
def SECONDS_PER_DAY : Int := 86400

/-! ## Data model -/

/-- Crypto details dict read by crypto_risk_analysis; defaults are the
d.get defaults used at production_workflow.py lines 498-505. -/
structure CryptoDetails where
  mixer_used : Bool := false
  darknet_market : Option String := none
  wallet_age_days : Int := 0
  cross_chain_swaps : Int := 0
deriving DecidableEq

/-- A customer transaction-history entry as read by the behavioural stage
(production_workflow.py lines 413-422): only timestamp and amount are used. -/
structure HistTx where
  timestamp : Option Int := none
  amount : Option Rat := none
deriving DecidableEq

/-- The unified transaction dict threaded through the workflow, restricted to
the keys any modelled stage or route reads. -/
structure Tx where
  parties : Option (List String) := none
  counterparty_id : Option String := none
  asset_type : Option String := none
  amount : Option Rat := none
  from_bank : Option String := none
  to_bank : Option String := none
  origin_country : Option String := none
  destination_country : Option String := none
  country : Option String := none
  intermediate_countries : List String := []
  timestamp : Option Int := none
  crypto_details : Option CryptoDetails := none
deriving DecidableEq

/-- The customer dict, restricted to the keys the workflow reads. -/
structure Customer where
  name : Option String := none
  account_age_days : Option Int := none
  transaction_history : List HistTx := []
deriving DecidableEq

/-- AMLState (production_workflow.py lines 84-135), restricted to the fields
the modelled stages read or write.  Omitted: investigation, llm_analysis,
layering_detected, transaction_count, workflow_complete, and the top-level
mirror fields from_bank / to_bank / payment_format / asset_type /
ground_truth_label, none of which any modelled stage or route reads. -/
structure AMLState where
  transaction : Tx
  customer : Customer
  risk_score : Nat := 0
  alerts : List String := []
  risk_factors : List String := []
  decision_path : List String := []
  pep_status : Option Bool := none
  sanction_hits : List String := []
  documents : List String := []
  document_risks : List String := []
  crypto_details : Option CryptoDetails := none
  origin_country : Option String := none
  destination_country : Option String := none
  intermediate_countries : List String := []
  structuring_detected : Bool := false
  smurfing_detected : Bool := false
  reporting_status : Option String := none
  case_id : Option String := none
  sar_timestamp : Option Int := none
  review_status : Option String := none
  review_deadline : Option Int := none
deriving DecidableEq

/-- Opaque external inputs of one workflow run: the uppercase risk codes the
regexes extract from each LLM reply, the generated case id, and the wall
clock (seconds). -/
structure Oracle where
  now : Int := 0
  caseId : String := "abcdef012345"
  documentCodes : List String := []
  behavioralCodes : List String := []
  cryptoCodes : List String := []
  eddCodes : List String := []

/-! ## Utility functions (production_workflow.py lines 153-200) -/

/-- check_pep_database: keyword match on the lower-cased customer name. -/
def check_pep_database (name : String) : Bool :=
  ["gov", "minister", "official", "senator", "president", "director",
   "ambassador"].any (fun keyword => containsSub keyword (lowerString name))

/-- check_sanctions_list: an entity is appended to hits once per sanctioned
substring that occurs (case-insensitively) inside it. -/
def check_sanctions_list (entities : List String) : List String :=
  entities.flatMap (fun entity =>
    (SANCTIONED_ENTITIES.filter
      (fun sanctioned => containsSub (lowerString sanctioned)
        (lowerString entity))).map
      (fun _ => entity))

/-- update_path: append a step name to decision_path. -/
def update_path (state : AMLState) (step : String) : AMLState :=
  { state with decision_path := state.decision_path ++ [step] }

/-! ## Statistics helpers.  statistics.stdev is the sample standard deviation
and numpy.var the population variance; the source only compares them against
constant ceilings, and both sides being nonnegative, stdev < c is equivalent
to the sample variance being < c ^ 2, which is how the comparison is
modelled (square roots stay out of the rational model). -/

/-- Arithmetic mean of a list of rationals (0 for the empty list). -/
def listMean (xs : List Rat) : Rat := xs.sum / xs.length

/-- Sample variance (denominator n - 1), the square of statistics.stdev. -/
def sampleVariance (xs : List Rat) : Rat :=
  if xs.length ≤ 1 then 0
  else ((xs.map (fun x => (x - listMean xs) ^ 2)).sum) / ((xs.length : Rat) - 1)

/-- Population variance (denominator n), numpy.var. -/
def populationVariance (xs : List Rat) : Rat :=
  if xs.length = 0 then 0
  else ((xs.map (fun x => (x - listMean xs) ^ 2)).sum) / (xs.length : Rat)

/-! ## Workflow stages (production_workflow.py lines 316-760).
Each stage is the pure content of the corresponding node function; the LLM
round-trips only contribute their extracted code lists, taken from the
Oracle. -/

/-- async_crypto_risk_analysis (lines 484-537): rule-based crypto risks plus
LLM codes; a non-crypto transaction passes through (path already updated). -/
def crypto_risk_analysis (o : Oracle) (state : AMLState) : AMLState :=
  let state := update_path state "crypto_analysis"
  if state.transaction.asset_type ≠ some "CRYPTO" then state
  else
    let details := state.transaction.crypto_details.getD {}
    let risks :=
      (if details.mixer_used then ["CRYPTO_MIXER"] else []) ++
      (if (match details.darknet_market with
           | some d => DARKNET_MARKETS.contains d
           | none => false) then ["DARKNET_CONNECTION"] else []) ++
      (if details.wallet_age_days < 7 then ["NEW_WALLET"] else []) ++
      (if details.cross_chain_swaps > 3 then ["COMPLEX_ROUTING"] else []) ++
      o.cryptoCodes
    { state with risk_factors := state.risk_factors ++ risks,
                 crypto_details := some details }

/-- geographic_risk_assessment (lines 364-397). -/
def geographic_risk_assessment (state : AMLState) : AMLState :=
  let state := update_path state "geo_analysis"
  let tx := state.transaction
  let locations :=
    ([tx.origin_country.getD "", tx.destination_country.getD "",
      tx.country.getD ""] ++ tx.intermediate_countries).filter
      (fun loc => loc ≠ "")
  let risk_factors := locations.flatMap (fun c =>
    (if HIGH_RISK_COUNTRIES.contains c then ["HIGH_RISK_" ++ c] else []) ++
    (if TAX_HAVENS.contains c then ["TAX_HAVEN_" ++ c] else []))
  { state with risk_factors := state.risk_factors ++ risk_factors,
               origin_country := tx.origin_country,
               destination_country := tx.destination_country,
               intermediate_countries := tx.intermediate_countries }

/-- async_document_analysis (lines 316-358): with no documents, only the
MISSING_DOCUMENTS alert is appended; otherwise the LLM risk codes populate
both risk_factors and document_risks. -/
def document_analysis (o : Oracle) (state : AMLState) : AMLState :=
  let state := update_path state "document_analysis"
  if state.documents = [] then
    { state with alerts := state.alerts ++ ["MISSING_DOCUMENTS"] }
  else
    { state with risk_factors := state.risk_factors ++ o.documentCodes,
                 document_risks := o.documentCodes }

/-- The trailing-window filter of async_behavioral_analysis (lines 413-420):
a history transaction is recent when (current - tx).days < 1, i.e. the
signed difference is below one day in seconds; a missing timestamp defaults
to the current timestamp and is therefore recent. -/
def recent_history (current_timestamp : Int) (history : List HistTx) :
    List HistTx :=
  history.filter
    (fun tx => current_timestamp - tx.timestamp.getD current_timestamp
      < SECONDS_PER_DAY)

/-- The amounts of the recent transactions, the current one appended last
(line 422); missing amounts default to 0. -/
def window_amounts (now : Int) (current : Tx) (history : List HistTx) :
    List Rat :=
  (recent_history (current.timestamp.getD now) history).map
    (fun tx => tx.amount.getD 0) ++ [current.amount.getD 0]

/-- The structuring alerts of async_behavioral_analysis (lines 424-435):
STRUCTURING_PATTERN when more than 3 window transactions exist and all of
their amounts are below CTR_THRESHOLD; UNIFORM_TRANSACTIONS when more than 5
exist and the sample standard deviation of the amounts is below 500
(modelled as sample variance < 500 ^ 2). -/
def structuring_alerts (now : Int) (current : Tx) (history : List HistTx) :
    List String :=
  let amounts := window_amounts now current history
  (if 3 < amounts.length ∧ amounts.all (fun a => a < CTR_THRESHOLD)
   then ["STRUCTURING_PATTERN"] else []) ++
  (if 5 < amounts.length ∧ 1 < amounts.length ∧
      sampleVariance amounts < 500 ^ 2
   then ["UNIFORM_TRANSACTIONS"] else [])

/-- async_behavioral_analysis (lines 399-478), its LLM codes from the
Oracle. -/
def behavioral_analysis (o : Oracle) (state : AMLState) : AMLState :=
  let state := update_path state "behavior_analysis"
  let alerts :=
    structuring_alerts o.now state.transaction
      state.customer.transaction_history
  { state with
      alerts := state.alerts ++ alerts,
      risk_factors := state.risk_factors ++ o.behavioralCodes,
      structuring_detected := alerts.contains "STRUCTURING_PATTERN" }

/-- sanctions_screening (lines 543-560).  The Python code fetches the
transaction dict's parties list and appends the customer name and the
counterparty id to it IN PLACE: when the transaction carries a parties key,
that list object - shared between the caller's input dict and the returned
state - grows by the two entries; when the key is absent, get returns a
fresh list and the transaction is untouched.  Option.map captures exactly
this. -/
def sanctions_screening (state : AMLState) : AMLState :=
  let state := update_path state "sanctions_check"
  let parties := state.transaction.parties.getD [] ++
    [state.customer.name.getD "", state.transaction.counterparty_id.getD ""]
  let hits := check_sanctions_list parties
  { state with
      transaction := { state.transaction with
        parties := state.transaction.parties.map (fun _ => parties) },
      sanction_hits := hits,
      risk_factors := state.risk_factors ++
        hits.map (fun hit => "SANCTION_HIT_" ++ hit) }

/-- pep_screening (lines 562-578).  The Python code binds risk_factors to the
input state's list and appends PEP_CUSTOMER to it IN PLACE when the customer
is a PEP; the returned state carries that same (possibly grown) list object,
so the returned risk_factors value is also what the caller's input dict
holds after the call. -/
def pep_screening (state : AMLState) : AMLState :=
  let state := update_path state "pep_check"
  let customer_name := state.customer.name.getD ""
  let pepFlag := check_pep_database customer_name
  { state with
      pep_status := some pepFlag,
      risk_factors := state.risk_factors ++
        (if pepFlag then ["PEP_CUSTOMER"] else []) }

/-- async_enhanced_due_diligence (lines 580-635): appends the critical risk
codes extracted from the LLM reply. -/
def enhanced_due_diligence (o : Oracle) (state : AMLState) : AMLState :=
  let state := update_path state "enhanced_dd"
  { state with risk_factors := state.risk_factors ++ o.eddCodes }

/-- risk_scoring (lines 641-684): fresh weighted sum, capped at 100. -/
def risk_scoring (state : AMLState) : AMLState :=
  let state := update_path state "risk_scoring"
  let score := 40 * state.sanction_hits.length
    + (if state.pep_status = some true then 35 else 0)
    + 25 * (state.risk_factors.filter
        (fun rf => containsSub "CRYPTO" rf)).length
    + 20 * (state.risk_factors.filter
        (fun rf => containsSub "HIGH_RISK" rf || containsSub "TAX_HAVEN" rf)).length
    + 15 * state.document_risks.length
    + 10 * state.alerts.length
    + (if state.structuring_detected then 30 else 0)
    + (if state.smurfing_detected then 30 else 0)
  { state with risk_score := min score 100 }

/-- async_generate_sar (lines 686-743): files the SAR, assigning the case id
and the timestamp. -/
def generate_sar (o : Oracle) (state : AMLState) : AMLState :=
  let state := update_path state "sar_generation"
  { state with reporting_status := some "SAR_FILED",
               case_id := some o.caseId,
               sar_timestamp := some o.now }

/-- human_review (lines 749-760): 24-hour review deadline. -/
def human_review (o : Oracle) (state : AMLState) : AMLState :=
  let state := update_path state "human_review"
  { state with reporting_status := some "HUMAN_REVIEW",
               review_status := some "PENDING",
               review_deadline := some (o.now + 24 * 3600) }

/-! ## Conditional routing (production_workflow.py lines 766-836) -/

/-- The Python membership test bank in HIGH_RISK_BANKS, where bank may be
None (absent key). -/
def bank_in_flagged (bank : Option String) : Bool :=
  match bank with
  | some b => HIGH_RISK_BANKS.contains b
  | none => false

/-- route_initial_screening (lines 766-790).  Note the order: the new-account
test precedes the flagged-bank test. -/
def route_initial_screening (state : AMLState) : String :=
  let tx := state.transaction
  let customer := state.customer
  if tx.asset_type = some "CRYPTO" then "CRYPTO_TRANSACTION"
  else if 100000 < tx.amount.getD 0 then "LARGE_TRANSACTION"
  else if customer.account_age_days.getD 365 < 7 then "NEW_ACCOUNT"
  else if bank_in_flagged tx.from_bank || bank_in_flagged tx.to_bank then
    "HIGH_RISK_BANK"
  else "STANDARD_FLOW"

/-- route_crypto_analysis (lines 792-801). -/
def route_crypto_analysis (state : AMLState) : String :=
  if 2 ≤ (state.risk_factors.filter
      (fun rf => containsSub "CRYPTO" rf)).length
  then "HIGH_RISK_CRYPTO" else "NORMAL_CRYPTO"

/-- route_sanctions_check (lines 803-810); a nonempty hit list is truthy. -/
def route_sanctions_check (state : AMLState) : String :=
  if state.sanction_hits ≠ [] then "SANCTION_HIT" else "NO_HIT"

/-- route_pep_check (lines 812-819); only some true is truthy. -/
def route_pep_check (state : AMLState) : String :=
  if state.pep_status = some true then "PEP_FOUND" else "NO_PEP"

/-- route_risk_score (lines 821-836). -/
def route_risk_score (state : AMLState) : String :=
  if 65 ≤ state.risk_score then "HIGH_RISK"
  else if 40 ≤ state.risk_score then "MEDIUM_RISK"
  else "LOW_RISK"

/-! ## The workflow graph (_build_workflow, lines 863-956) -/

/-- The graph nodes. -/
inductive Stage
  | initial_screening
  | crypto_analysis
  | geo_analysis
  | document_check
  | behavior_check
  | sanctions_check
  | pep_check
  | edd
  | score_risk
  | generate_sar
  | human_review
deriving DecidableEq, Repr

/-- The string each node appends to decision_path (the initial_screening
node appends "start"; the others append their implementing function's step
name). -/
def stageName : Stage → String
  | .initial_screening => "start"
  | .crypto_analysis => "crypto_analysis"
  | .geo_analysis => "geo_analysis"
  | .document_check => "document_analysis"
  | .behavior_check => "behavior_analysis"
  | .sanctions_check => "sanctions_check"
  | .pep_check => "pep_check"
  | .edd => "enhanced_dd"
  | .score_risk => "risk_scoring"
  | .generate_sar => "sar_generation"
  | .human_review => "human_review"

/-- Node bodies as wired in _build_workflow (lines 870-891). -/
def applyStage (o : Oracle) : Stage → AMLState → AMLState
  | .initial_screening, s => update_path s "start"
  | .crypto_analysis, s => crypto_risk_analysis o s
  | .geo_analysis, s => geographic_risk_assessment s
  | .document_check, s => document_analysis o s
  | .behavior_check, s => behavioral_analysis o s
  | .sanctions_check, s => sanctions_screening s
  | .pep_check, s => pep_screening s
  | .edd, s => enhanced_due_diligence o s
  | .score_risk, s => risk_scoring s
  | .generate_sar, s => generate_sar o s
  | .human_review, s => human_review o s

/-- The label-to-node edge map of the initial_screening conditional edge
(lines 897-907).  route_initial_screening only ever produces the five mapped
labels; the catch-all branch is unreachable. -/
def initial_screening_edge (label : String) : Stage :=
  if label = "CRYPTO_TRANSACTION" then .crypto_analysis
  else if label = "LARGE_TRANSACTION" then .geo_analysis
  else if label = "NEW_ACCOUNT" then .edd
  else if label = "HIGH_RISK_BANK" then .geo_analysis
  else .document_check

/-- Edge map of the crypto_analysis conditional edge (lines 909-916). -/
def crypto_analysis_edge (label : String) : Stage :=
  if label = "HIGH_RISK_CRYPTO" then .edd else .document_check

/-- Edge map of the sanctions_check conditional edge (lines 923-930). -/
def sanctions_check_edge (label : String) : Stage :=
  if label = "SANCTION_HIT" then .generate_sar else .pep_check

/-- Edge map of the pep_check conditional edge (lines 932-939). -/
def pep_check_edge (label : String) : Stage :=
  if label = "PEP_FOUND" then .edd else .score_risk

/-- Edge map of the score_risk conditional edge (lines 943-951); the
LOW_RISK label maps to END, modelled as none. -/
def score_risk_edge (label : String) : Option Stage :=
  if label = "HIGH_RISK" then some .generate_sar
  else if label = "MEDIUM_RISK" then some .human_review
  else none

/-- The full transition function of the graph: conditional edges compose the
route function with its edge map; plain edges (lines 919-921, 941, 953-954)
are unconditional; none is END. -/
def nextStage : Stage → AMLState → Option Stage
  | .initial_screening, s =>
      some (initial_screening_edge (route_initial_screening s))
  | .crypto_analysis, s => some (crypto_analysis_edge (route_crypto_analysis s))
  | .geo_analysis, _ => some .document_check
  | .document_check, _ => some .behavior_check
  | .behavior_check, _ => some .sanctions_check
  | .sanctions_check, s =>
      some (sanctions_check_edge (route_sanctions_check s))
  | .pep_check, s => some (pep_check_edge (route_pep_check s))
  | .edd, _ => some .score_risk
  | .score_risk, s => score_risk_edge (route_risk_score s)
  | .generate_sar, _ => none
  | .human_review, _ => none

/-- A numbering of the stages under which every edge of the graph strictly
increases, witnessing acyclicity. -/
def stageIdx : Stage → Nat
  | .initial_screening => 0
  | .crypto_analysis => 1
  | .geo_analysis => 2
  | .document_check => 3
  | .behavior_check => 4
  | .sanctions_check => 5
  | .pep_check => 6
  | .edd => 7
  | .score_risk => 8
  | .generate_sar => 9
  | .human_review => 10

/-- Run the compiled graph from a stage: execute the node, follow the
transition, stop at END (or when the fuel runs out - with fuel 12 it never
does).  Returns the final state and the list of visited stages. -/
def runFrom (o : Oracle) : Nat → Stage → AMLState → AMLState × List Stage
  | 0, _, s => (s, [])
  | fuel + 1, st, s =>
    let s' := applyStage o st s
    match nextStage st s' with
    | none => (s', [st])
    | some st' =>
      let r := runFrom o fuel st' s'
      (r.1, st :: r.2)

/-- The initial AMLState built by run_analysis (lines 975-1007), restricted
to the modelled fields: the unified transaction, the customer dict, and the
raw documents list (the other raw-sourced mirror fields feed no modelled
logic). -/
def initial_state (tx : Tx) (customer : Customer) (documents : List String) :
    AMLState :=
  { transaction := tx, customer := customer, risk_score := 0, alerts := [],
    risk_factors := [], decision_path := [], pep_status := none,
    sanction_hits := [], documents := documents, document_risks := [],
    crypto_details := tx.crypto_details, origin_country := tx.origin_country,
    destination_country := tx.destination_country,
    intermediate_countries := tx.intermediate_countries,
    structuring_detected := false, smurfing_detected := false,
    reporting_status := none, case_id := none, sar_timestamp := none,
    review_status := none, review_deadline := none }

/-- One workflow invocation as performed by run_analysis: run from the entry
point initial_screening. -/
def pipelineRun (o : Oracle) (fuel : Nat) (tx : Tx) (customer : Customer)
    (documents : List String) : AMLState × List Stage :=
  runFrom o fuel .initial_screening (initial_state tx customer documents)

/-- The storage decision of analyze_transaction (lines 1244-1255): the
result enters the global INVESTIGATION_RESULTS index exactly when the
reported case_id is truthy (present and nonempty). -/
def storesResult (result : AMLState) : Bool :=
  match result.case_id with
  | some cid => cid ≠ ""
  | none => false

/-! ## Smurfing detection (production_analysis_tools.py lines 109-242).
Transactions here are the related-transaction dicts of the tool: the keys
read are transaction_date (an ISO timestamp string, modelled as seconds; a
malformed or missing date, which datetime.fromisoformat rejects, is none,
and sorts first like the empty-string default sort key), counterparty_id
and amount. -/

/-- A related transaction as read by the smurfing detector. -/
structure STx where
  transaction_date : Option Int := none
  counterparty_id : Option String := none
  amount : Option Rat := none
deriving DecidableEq

/-- Ordering of the Python sort key transaction_date (missing dates default
to the empty string, which sorts before every ISO timestamp). -/
def date_le (a b : STx) : Bool :=
  match a.transaction_date, b.transaction_date with
  | none, _ => true
  | some _, none => false
  | some x, some y => x ≤ y

/-- Insert into an already sorted list, after any equal keys (keeps the
stability of Python sorted). -/
def insert_by_date : List STx → STx → List STx
  | [], tx => [tx]
  | h :: t, tx =>
    if date_le h tx then h :: insert_by_date t tx else tx :: h :: t

/-- sorted(transactions, key=transaction_date) as a stable insertion sort. -/
def sorted_by_date (transactions : List STx) : List STx :=
  transactions.foldl insert_by_date []

/-- The helper named _within_time_window in the source (lines 191-199): both
dates parse and their absolute difference is at most the window; any parse
failure yields False. -/
def within_time_window (tx1 tx2 : STx) (time_window_hours : Int) : Bool :=
  match tx1.transaction_date, tx2.transaction_date with
  | some d1, some d2 => |d2 - d1| ≤ time_window_hours * 3600
  | _, _ => false

/-- The grouping loop of the source helper named _group_by_time_window
(lines 166-189): a transaction joins the current group when it is within the
window OF THE GROUP'S FIRST transaction, else it starts a new group. -/
def group_go (time_window_hours : Int) (current_group : List STx) :
    List STx → List (List STx)
  | [] => [current_group]
  | tx :: rest =>
    match current_group with
    | [] => group_go time_window_hours [tx] rest
    | first :: _ =>
      if within_time_window first tx time_window_hours then
        group_go time_window_hours (current_group ++ [tx]) rest
      else current_group :: group_go time_window_hours [tx] rest

/-- The source helper named _group_by_time_window. -/
def group_by_time_window (transactions : List STx)
    (time_window_hours : Int) : List (List STx) :=
  match sorted_by_date transactions with
  | [] => []
  | tx :: rest => group_go time_window_hours [tx] rest

/-- The source helper named _calculate_coordination_score (lines 201-229). -/
def calculate_coordination_score (transactions : List STx) : Rat :=
  if transactions.length < 2 then 0
  else
    let recipients := transactions.map (fun tx => tx.counterparty_id)
    let unique_recipients := recipients.dedup.length
    let amounts := transactions.map (fun tx => tx.amount.getD 0)
    let amount_variance :=
      if 1 < amounts.length then populationVariance amounts else 0
    let score : Rat :=
      (if unique_recipients = 1 then 0.5 else 0)
      + (if amount_variance < 1000 then 0.3 else 0)
      + (if 3 ≤ transactions.length then 0.2 else 0)
    min 1 score

/-- The coordinated-group scores collected by detect_smurfing_patterns
(lines 134-144): groups of at least min_coordinated_accounts = 3 whose
coordination score exceeds 0.6, in order. -/
def coordinated_group_scores (time_groups : List (List STx)) : List Rat :=
  ((time_groups.filter (fun g => 3 ≤ g.length)).map
    calculate_coordination_score).filter (fun sc => (0.6 : Rat) < sc)

/-- The source helper named _calculate_smurfing_score (lines 231-242), on
the list of coordinated-group scores. -/
def calculate_smurfing_score (scores : List Rat) : Rat :=
  if scores = [] then 0
  else
    let avg_coordination := scores.sum / scores.length
    let group_factor := min 1 ((scores.length : Rat) / 3)
    avg_coordination * 0.7 + group_factor * 0.3

/-- detect_smurfing_patterns (lines 109-155): the detected flag. -/
def detect_smurfing_patterns (related_transactions : List STx)
    (time_window_hours : Int) : Bool :=
  let time_groups := group_by_time_window related_transactions
    time_window_hours
  calculate_smurfing_score
    (coordinated_group_scores time_groups) > (0.7 : Rat)

/-! ## Claim-side smurfing definitions, written from the words of claim C6
(and its amendment); only the window-chaining rule differs between the
two. -/

/-- Claim C6's chaining: consecutive sorted transactions stay in one window
while the inter-arrival gap to the PREVIOUS transaction is within the
window. -/
def claim_chain_go (time_window_hours : Int) (prev : STx)
    (acc : List STx) : List STx → List (List STx)
  | [] => [acc]
  | tx :: rest =>
    if within_time_window prev tx time_window_hours then
      claim_chain_go time_window_hours tx (acc ++ [tx]) rest
    else acc :: claim_chain_go time_window_hours tx [tx] rest

/-- Claim C6's disjoint windows, chained by inter-arrival gap. -/
def claim_windows_by_gap (transactions : List STx)
    (time_window_hours : Int) : List (List STx) :=
  match sorted_by_date transactions with
  | [] => []
  | tx :: rest => claim_chain_go time_window_hours tx [tx] rest

/-- The amended chaining: a transaction joins while it is within the window
of the FIRST transaction of the current window (the window start is carried
explicitly). -/
def amended_chain_go (time_window_hours : Int) (start : STx)
    (acc : List STx) : List STx → List (List STx)
  | [] => [acc]
  | tx :: rest =>
    if within_time_window start tx time_window_hours then
      amended_chain_go time_window_hours start (acc ++ [tx]) rest
    else acc :: amended_chain_go time_window_hours tx [tx] rest

/-- The amended claim's disjoint windows, anchored at each window's first
transaction. -/
def amended_windows (transactions : List STx) (time_window_hours : Int) :
    List (List STx) :=
  match sorted_by_date transactions with
  | [] => []
  | tx :: rest => amended_chain_go time_window_hours tx [tx] rest

/-- Claim C6's per-window coordination score:
0.5 x [exactly one distinct recipient] + 0.3 x [amount variance below the
ceiling 1000] + 0.2 x [window holds at least 3 transactions]. -/
def claim_coordination_score (window : List STx) : Rat :=
  0.5 * (if (window.map (fun tx => tx.counterparty_id)).dedup.length = 1
         then 1 else 0)
  + 0.3 * (if populationVariance (window.map (fun tx => tx.amount.getD 0))
              < 1000 then 1 else 0)
  + 0.2 * (if 3 ≤ window.length then 1 else 0)

/-- Claim C6's detection verdict over a given window decomposition: windows
of at least 3 transactions are scored, a window is coordinated when its
score exceeds 0.6, smurfing_score = 0.7 x mean(coordinated scores) +
0.3 x min(1, count / 3), and detection means smurfing_score > 0.7. -/
def claim_smurfing_verdict (windows : List (List STx)) : Bool :=
  let scores := ((windows.filter (fun w => 3 ≤ w.length)).map
    claim_coordination_score).filter (fun sc => (0.6 : Rat) < sc)
  let smurfing_score : Rat :=
    if scores = [] then 0
    else 0.7 * (scores.sum / scores.length)
      + 0.3 * min 1 ((scores.length : Rat) / 3)
  (0.7 : Rat) < smurfing_score

/-- Claim C6 as written: detection over gap-chained windows. -/
def claim_smurfing_detected (transactions : List STx)
    (time_window_hours : Int) : Bool :=
  claim_smurfing_verdict (claim_windows_by_gap transactions
    time_window_hours)

/-! ## Claim-side structuring definition (claim C5 as written) -/

/-- Claim C5's structuring flag: more than 3 window transactions (current
included) with amount in the band from 0.95 x threshold (inclusive) to the
threshold (exclusive), for threshold 10000. -/
def claim_structuring_flag (now : Int) (current : Tx)
    (history : List HistTx) : Bool :=
  3 < ((window_amounts now current history).filter
    (fun a => 0.95 * CTR_THRESHOLD ≤ a ∧ a < CTR_THRESHOLD)).length

/-! ## Canonicalizer (unify_transaction_data, production_workflow.py lines
202-268).  The raw record is modelled by one structure holding every key any
of the three shape branches reads; a key that is absent is none.  The
sentinel keys are From Bank (HI-Small_Trans shape), transaction_id
(operational shape) and SENDER_ACCOUNT_ID (fraud-detection shape). -/

/-- A raw transaction record.  Field FromBank stands for the key From Bank,
AmountReceived for Amount Received, ReceivingCurrency for Receiving
Currency, PaymentFormat for Payment Format, IsLaundering for Is Laundering,
TimestampHi for Timestamp. -/
structure RawTx where
  FromBank : Option String := none
  Account : Option String := none
  ToBank : Option String := none
  AmountReceived : Option Rat := none
  ReceivingCurrency : Option String := none
  PaymentFormat : Option String := none
  TimestampHi : Option String := none
  IsLaundering : Option Int := none
  transaction_id : Option String := none
  customer_id : Option String := none
  counterparty_id : Option String := none
  amount : Option Rat := none
  currency : Option String := none
  transaction_type : Option String := none
  transaction_date : Option String := none
  location : Option String := none
  country : Option String := none
  description : Option String := none
  status : Option String := none
  asset_type : Option String := none
  crypto_details : Option String := none
  origin_country : Option String := none
  destination_country : Option String := none
  intermediate_countries : Option (List String) := none
  documents : Option (List String) := none
  SENDER_ACCOUNT_ID : Option String := none
  RECEIVER_ACCOUNT_ID : Option String := none
  TX_TYPE : Option String := none
  TIMESTAMP : Option Int := none
  IS_FRAUD : Option Int := none
deriving DecidableEq

/-- The unified dict unify_transaction_data returns: a field that is none is
a key the returned dict does not hold, so the default value (every field
none) is the empty dict the unrecognized-shape path returns. -/
structure Unified where
  transaction_id : Option String := none
  customer_id : Option String := none
  counterparty_id : Option String := none
  amount : Option Rat := none
  currency : Option String := none
  transaction_type : Option String := none
  transaction_date : Option String := none
  location : Option String := none
  country : Option String := none
  description : Option String := none
  status : Option String := none
  from_bank : Option String := none
  to_bank : Option String := none
  payment_format : Option String := none
  ground_truth_label : Option Int := none
  asset_type : Option String := none
  crypto_details : Option String := none
  origin_country : Option String := none
  destination_country : Option String := none
  intermediate_countries : Option (List String) := none
  documents : Option (List String) := none
deriving DecidableEq

/-- unify_transaction_data: shape dispatch on the sentinel keys, in source
order; a record matching none of the three shapes yields the untouched empty
dict. -/
def unify_transaction_data (transaction : RawTx) : Unified :=
  if transaction.FromBank.isSome then
    { transaction_id := some ("HI_" ++ transaction.Account.getD "unknown"),
      customer_id := some (transaction.Account.getD "unknown"),
      counterparty_id := some (transaction.ToBank.getD "unknown"),
      amount := some (transaction.AmountReceived.getD 0),
      currency := some (transaction.ReceivingCurrency.getD "USD"),
      transaction_type := some (transaction.PaymentFormat.getD "unknown"),
      transaction_date := some (transaction.TimestampHi.getD ""),
      location := some "Unknown",
      country := some "Unknown",
      description := some "HI-Small_Trans transaction",
      status := some "completed",
      from_bank := transaction.FromBank,
      to_bank := transaction.ToBank,
      payment_format := transaction.PaymentFormat,
      ground_truth_label := some (transaction.IsLaundering.getD 0) }
  else if transaction.transaction_id.isSome then
    { transaction_id := transaction.transaction_id,
      customer_id := some (transaction.customer_id.getD "unknown"),
      counterparty_id := transaction.counterparty_id,
      amount := some (transaction.amount.getD 0),
      currency := some (transaction.currency.getD "USD"),
      transaction_type := some (transaction.transaction_type.getD "unknown"),
      transaction_date := some (transaction.transaction_date.getD ""),
      location := some (transaction.location.getD "Unknown"),
      country := some (transaction.country.getD "Unknown"),
      description := some (transaction.description.getD ""),
      status := some (transaction.status.getD "completed"),
      asset_type := some (transaction.asset_type.getD "FIAT"),
      crypto_details := transaction.crypto_details,
      origin_country := transaction.origin_country,
      destination_country := transaction.destination_country,
      intermediate_countries :=
        some (transaction.intermediate_countries.getD []),
      documents := some (transaction.documents.getD []) }
  else if transaction.SENDER_ACCOUNT_ID.isSome then
    { transaction_id := some (transaction.transaction_id.getD "unknown"),
      customer_id := some (transaction.SENDER_ACCOUNT_ID.getD "unknown"),
      counterparty_id := some (transaction.RECEIVER_ACCOUNT_ID.getD "unknown"),
      amount := some (transaction.amount.getD 0),
      currency := some "USD",
      transaction_type := some (transaction.TX_TYPE.getD "unknown"),
      transaction_date := some (match transaction.TIMESTAMP with
        | some t => toString t
        | none => ""),
      location := some "Unknown",
      country := some "Unknown",
      description := some "Fraud detection transaction",
      status := some "completed",
      ground_truth_label := some (transaction.IS_FRAUD.getD 0) }
  else {}

/-! ## Batch processing (batch_processor.py lines 180-297).  Whether the
awaited investigation of one row succeeds or raises is an external outcome;
it is modelled as an Option of the investigation result (none = raised). -/

/-- A HI-Small_Trans row: the loop body reads only Is Laundering (default
0). -/
structure HiRow where
  IsLaundering : Int := 0
deriving DecidableEq

/-- An investigation result as read by the batch loop: only risk_level is
consulted. -/
structure InvResult where
  risk_level : Option String := none
deriving DecidableEq

/-- The per-case record the batch loop appends: the row's ground truth and
the prediction thresholded at the High / Critical boundary (lines
218-219). -/
structure CaseRecord where
  ground_truth : Int
  prediction : Int
deriving DecidableEq

/-- Build the record appended for a successfully investigated row. -/
def make_case_record (row : HiRow) (inv : InvResult) : CaseRecord :=
  { ground_truth := row.IsLaundering,
    prediction := if inv.risk_level = some "High" ∨
        inv.risk_level = some "Critical" then 1 else 0 }

/-- The loop of the source method named _process_hi_trans_batch (lines
180-230): rows are processed in order inside try / except; a raising row
increments the error counter and appends nothing, every other row appends
its record.  Returns (results, errors-added). -/
def process_hi_trans_batch :
    List (HiRow × Option InvResult) → List CaseRecord × Nat
  | [] => ([], 0)
  | (row, outcome) :: rest =>
    let r := process_hi_trans_batch rest
    match outcome with
    | some inv => (make_case_record row inv :: r.1, r.2)
    | none => (r.1, r.2 + 1)

/-- The metric record calculate_accuracy_metrics returns. -/
structure Metrics where
  accuracy : Rat
  precision : Rat
  recall_metric : Rat
  f1_score : Rat
  true_positives : Nat
  false_positives : Nat
  true_negatives : Nat
  false_negatives : Nat
  total_samples : Nat
deriving DecidableEq

/-- calculate_accuracy_metrics (lines 248-297); none is the empty dict
returned for an empty input.  Every record the batch loop appends carries
both the ground_truth and the prediction key, so the valid-results filter
keeps everything. -/
def calculate_accuracy_metrics (results : List CaseRecord) :
    Option Metrics :=
  if results = [] then none
  else
    let valid_results := results
    let tp := (valid_results.filter
      (fun r => r.prediction = 1 ∧ r.ground_truth = 1)).length
    let fp := (valid_results.filter
      (fun r => r.prediction = 1 ∧ r.ground_truth = 0)).length
    let tn := (valid_results.filter
      (fun r => r.prediction = 0 ∧ r.ground_truth = 0)).length
    let fneg := (valid_results.filter
      (fun r => r.prediction = 0 ∧ r.ground_truth = 1)).length
    let precision : Rat := if 0 < tp + fp then (tp : Rat) / (tp + fp) else 0
    let recall_metric : Rat := if 0 < tp + fneg then (tp : Rat) / (tp + fneg) else 0
    let f1 : Rat := if 0 < precision + recall_metric then
      2 * (precision * recall_metric) / (precision + recall_metric) else 0
    some { accuracy := ((tp : Rat) + tn) / valid_results.length,
           precision := precision, recall_metric := recall_metric, f1_score := f1,
           true_positives := tp, false_positives := fp,
           true_negatives := tn, false_negatives := fneg,
           total_samples := valid_results.length }

/-! ## Concrete instances used by the counterexamples and witnesses -/

/-- A non-crypto transaction of 500 from flagged bank 03208 whose customer
account is 3 days old. -/
def c3_state : AMLState :=
  { transaction := { from_bank := some "03208", amount := some 500 },
    customer := { account_age_days := some 3 } }

/-- A current transaction of amount 100 at time 0. -/
def c5_current : Tx := { timestamp := some 0, amount := some 100 }

/-- Three history transactions of amount 100, all inside the trailing
24-hour window of c5_current. -/
def c5_history : List HistTx :=
  [{ timestamp := some 0, amount := some 100 },
   { timestamp := some 0, amount := some 100 },
   { timestamp := some 0, amount := some 100 }]

/-- Three related transactions to one counterparty, equal amounts, spaced
20 hours apart (timestamps in seconds): consecutive gaps stay within a
24-hour window but the third transaction is 40 hours after the first. -/
def c6_txs : List STx :=
  [{ transaction_date := some 0, counterparty_id := some "C",
     amount := some 5000 },
   { transaction_date := some 72000, counterparty_id := some "C",
     amount := some 5000 },
   { transaction_date := some 144000, counterparty_id := some "C",
     amount := some 5000 }]

/-- A raw record carrying none of the three sentinel keys. -/
def c7_raw : RawTx := { description := some "mystery-shape" }

/-- A state whose transaction carries a parties list and whose customer name
matches the PEP keyword list. -/
def c9_state : AMLState :=
  { transaction :=
      { parties := some ["acme_shell"], counterparty_id := some "cp_1" },
    customer := { name := some "minister_bob" } }

/-- The concrete external inputs used by the C10 witness run. -/
def witnessOracle : Oracle := {}

/-- The invariant holding before any terminal stage has run: no case id, no
reporting status, no review deadline. -/
def preTerminal (s : AMLState) : Prop :=
  s.case_id = none ∧ s.reporting_status = none ∧ s.review_deadline = none

/-- The transaction's parties list as it stands after sanctions_screening:
when present, the customer name and counterparty id are appended (to the
caller's own list object, by the in-place append of the source). -/
def parties_after (state : AMLState) : Option (List String) :=
  state.transaction.parties.map (fun ps =>
    ps ++ [state.customer.name.getD "",
           state.transaction.counterparty_id.getD ""])

/-!
# Theorems
-/

/-- C1: for every investigation state reaching the score_risk stage, the
risk score computed there equals min(100, 40 x (number of sanction hits) +
35 x (1 if PEP status is set) + 25 x (number of risk_factors containing
CRYPTO) + 20 x (number of risk_factors containing HIGH_RISK or TAX_HAVEN) +
15 x (number of document_risks) + 10 x (number of alerts) + 30 x (1 if
structuring_detected) + 30 x (1 if smurfing_detected)), computed fresh from
the state (the formula never mentions the incoming risk_score), and the
result is at most 100 (and, being a natural number, at least 0); as a Lean
function of the state it is pure and repeatable by construction. -/
theorem C1_risk_score_formula (state : AMLState) :
    (risk_scoring state).risk_score =
      min 100 (40 * state.sanction_hits.length
        + 35 * (if state.pep_status = some true then 1 else 0)
        + 25 * (state.risk_factors.filter
            (fun rf => containsSub "CRYPTO" rf)).length
        + 20 * (state.risk_factors.filter
            (fun rf => containsSub "HIGH_RISK" rf ||
              containsSub "TAX_HAVEN" rf)).length
        + 15 * state.document_risks.length
        + 10 * state.alerts.length
        + 30 * (if state.structuring_detected then 1 else 0)
        + 30 * (if state.smurfing_detected then 1 else 0))
    ∧ (risk_scoring state).risk_score ≤ 100 := by
  constructor
  · simp only [risk_scoring, update_path]
    rw [Nat.min_comm]
    simp only [mul_ite, mul_one, mul_zero]
  · simp only [risk_scoring, update_path]
    exact Nat.min_le_right _ _

/-- C4: for every state leaving the score_risk stage, the next stage is
generate_sar exactly when the risk score is at least 65, human_review
exactly when it is in [40, 65), and END (auto-close, modelled as none)
exactly when it is below 40. -/
theorem C4_score_risk_routing (state : AMLState) :
    (nextStage .score_risk (risk_scoring state) = some .generate_sar ↔
      65 ≤ (risk_scoring state).risk_score)
    ∧ (nextStage .score_risk (risk_scoring state) = some .human_review ↔
      (40 ≤ (risk_scoring state).risk_score ∧
        (risk_scoring state).risk_score < 65))
    ∧ (nextStage .score_risk (risk_scoring state) = none ↔
      (risk_scoring state).risk_score < 40) := by
  generalize risk_scoring state = s
  simp only [nextStage, route_risk_score]
  split_ifs with h1 h2 <;> refine ⟨?_, ?_, ?_⟩ <;>
    simp [score_risk_edge] <;> omega

/-- C3 counterexample: a transaction of amount 500 from flagged bank 03208
(not crypto, not large) whose customer account is 3 days old is routed out
of initial_screening to edd, not to geo_analysis as the claim requires. -/
theorem C3_counterexample :
    bank_in_flagged c3_state.transaction.from_bank = true
    ∧ c3_state.customer.account_age_days.getD 365 < 7
    ∧ c3_state.transaction.asset_type ≠ some "CRYPTO"
    ∧ ¬ 100000 < c3_state.transaction.amount.getD 0
    ∧ nextStage .initial_screening c3_state = some .edd
    ∧ Stage.edd ≠ Stage.geo_analysis := by
  refine ⟨by decide, by decide, by decide, by decide, ?_, by decide⟩
  decide

/-- C3 amended: the successor of initial_screening is determined in the
priority order crypto_analysis (asset_type CRYPTO), geo_analysis (amount
above 100000), edd (customer account younger than 7 days), geo_analysis
(either bank identifier flagged), and document_check otherwise; in
particular a flagged-bank transaction with an account younger than 7 days
routes to edd. -/
theorem C3_amended_priority (state : AMLState) :
    nextStage .initial_screening state = some (
      if state.transaction.asset_type = some "CRYPTO" then
        Stage.crypto_analysis
      else if 100000 < state.transaction.amount.getD 0 then
        Stage.geo_analysis
      else if state.customer.account_age_days.getD 365 < 7 then Stage.edd
      else if bank_in_flagged state.transaction.from_bank ||
          bank_in_flagged state.transaction.to_bank then Stage.geo_analysis
      else Stage.document_check) := by
  simp only [nextStage, initial_screening_edge, route_initial_screening]
  split_ifs <;> simp_all

/-- C7: on a raw record carrying none of the three shape sentinel keys
(From Bank, transaction_id, SENDER_ACCOUNT_ID), unify_transaction_data
raises nothing and silently returns the empty dict, contradicting the
specified fatal SchemaError. -/
theorem C7_silent_empty_record :
    unify_transaction_data c7_raw = ({} : Unified)
    ∧ c7_raw.FromBank = none
    ∧ c7_raw.transaction_id = none
    ∧ c7_raw.SENDER_ACCOUNT_ID = none := by
  refine ⟨?_, by decide, by decide, by decide⟩
  decide

/-- C9 counterexample: on a state whose customer name matches a PEP keyword
and whose transaction carries a parties list, pep_screening is not
idempotent, it changes the risk_factors list (the very list object of the
input state, which Python appends to in place), and sanctions_screening
grows the transaction's parties list (again the caller's own list object);
sanctions_screening is not idempotent either. -/
theorem C9_counterexample :
    pep_screening (pep_screening c9_state) ≠ pep_screening c9_state
    ∧ (pep_screening c9_state).risk_factors ≠ c9_state.risk_factors
    ∧ (sanctions_screening c9_state).transaction.parties ≠
        c9_state.transaction.parties
    ∧ sanctions_screening (sanctions_screening c9_state) ≠
        sanctions_screening c9_state := by
  refine ⟨by decide, by decide, by decide, by decide⟩

/-- C9 amended: the two screening stages are deterministic but neither pure
nor idempotent.  pep_screening appends PEP_CUSTOMER to the input state's
risk_factors list in place exactly when the customer name matches the PEP
keyword list; sanctions_screening appends the customer name and the
counterparty id to the transaction's parties list in place exactly when the
transaction carries that list (the returned risk_factors and parties values
below are also what the caller's input objects hold after the call, by the
aliasing described at the two definitions); and applying either stage twice
never equals applying it once, because each application appends the stage
name to decision_path again. -/
theorem C9_amended (state : AMLState) :
    (pep_screening state).risk_factors = state.risk_factors ++
      (if check_pep_database (state.customer.name.getD "") then
        ["PEP_CUSTOMER"] else [])
    ∧ (sanctions_screening state).transaction =
      { state.transaction with parties := parties_after state }
    ∧ pep_screening (pep_screening state) ≠ pep_screening state
    ∧ sanctions_screening (sanctions_screening state) ≠
        sanctions_screening state := by
  refine ⟨?_, ?_, ?_, ?_⟩
  · simp [pep_screening, update_path]
  · cases h : state.transaction.parties <;>
      simp [sanctions_screening, update_path, parties_after, h]
  · intro hcontra
    have hlen := congrArg (fun st => st.decision_path.length) hcontra
    simp [pep_screening, update_path] at hlen
  · intro hcontra
    have hlen := congrArg (fun st => st.decision_path.length) hcontra
    simp [sanctions_screening, update_path] at hlen

/-- C5 counterexample: four transactions of amount 100 inside the trailing
24-hour window (none of them in the band from 9500 to 10000) make the
workflow's behavioural stage raise STRUCTURING_PATTERN, while the claim's
band-counting rule does not flag them. -/
theorem C5_counterexample :
    (structuring_alerts 0 c5_current c5_history).contains
      "STRUCTURING_PATTERN" = true
    ∧ claim_structuring_flag 0 c5_current c5_history = false := by
  constructor
  · decide
  · norm_num [claim_structuring_flag, window_amounts, recent_history,
      c5_current, c5_history, CTR_THRESHOLD, SECONDS_PER_DAY, List.filter]

/-- C5 amended: the behavioural stage flags STRUCTURING_PATTERN exactly when
the trailing 24-hour window (current transaction included) holds more than 3
transactions and every windowed amount is below the threshold 10000 - there
is no 0.95-threshold lower band; it flags UNIFORM_TRANSACTIONS exactly when
the window holds more than 5 transactions and the sample standard deviation
of the windowed amounts is below the dispersion ceiling 500 (stated as
sample variance below 500 squared). -/
theorem C5_amended (now : Int) (current : Tx) (history : List HistTx) :
    ((structuring_alerts now current history).contains "STRUCTURING_PATTERN"
      = true ↔
      (3 < (window_amounts now current history).length ∧
        ∀ a ∈ window_amounts now current history, a < CTR_THRESHOLD))
    ∧ ((structuring_alerts now current history).contains
        "UNIFORM_TRANSACTIONS" = true ↔
      (5 < (window_amounts now current history).length ∧
        sampleVariance (window_amounts now current history) < 500 ^ 2)) := by
  simp only [structuring_alerts]
  generalize window_amounts now current history = amounts
  by_cases h1 : 3 < amounts.length ∧
      amounts.all (fun a => a < CTR_THRESHOLD)
  · rw [if_pos h1]
    simp only [List.all_eq_true, decide_eq_true_eq] at h1
    by_cases h2 : 5 < amounts.length ∧ 1 < amounts.length ∧
        sampleVariance amounts < 500 ^ 2
    · rw [if_pos h2]
      refine ⟨iff_of_true (by simp) h1, iff_of_true (by simp) ?_⟩
      exact ⟨h2.1, h2.2.2⟩
    · rw [if_neg h2]
      refine ⟨iff_of_true (by simp) h1, iff_of_false (by simp) ?_⟩
      rintro ⟨ha, hb⟩
      exact h2 ⟨ha, by omega, hb⟩
  · rw [if_neg h1]
    simp only [List.all_eq_true, decide_eq_true_eq] at h1
    by_cases h2 : 5 < amounts.length ∧ 1 < amounts.length ∧
        sampleVariance amounts < 500 ^ 2
    · rw [if_pos h2]
      refine ⟨iff_of_false (by simp) h1, iff_of_true (by simp) ?_⟩
      exact ⟨h2.1, h2.2.2⟩
    · rw [if_neg h2]
      refine ⟨iff_of_false (by simp) h1, iff_of_false (by simp) ?_⟩
      rintro ⟨ha, hb⟩
      exact h2 ⟨ha, by omega, hb⟩

/-- The results of a batch run split over list concatenation. -/
theorem process_results_append (l1 l2 : List (HiRow × Option InvResult)) :
    (process_hi_trans_batch (l1 ++ l2)).1 =
      (process_hi_trans_batch l1).1 ++ (process_hi_trans_batch l2).1 := by
  induction l1 with
  | nil => simp [process_hi_trans_batch]
  | cons hd tl ih =>
    obtain ⟨row, oc⟩ := hd
    cases oc <;> simp [process_hi_trans_batch, ih]

/-- The error tally of a batch run splits over list concatenation. -/
theorem process_errors_append (l1 l2 : List (HiRow × Option InvResult)) :
    (process_hi_trans_batch (l1 ++ l2)).2 =
      (process_hi_trans_batch l1).2 + (process_hi_trans_batch l2).2 := by
  induction l1 with
  | nil => simp [process_hi_trans_batch]
  | cons hd tl ih =>
    obtain ⟨row, oc⟩ := hd
    cases oc <;> (simp [process_hi_trans_batch, ih]; try omega)

/-- Every case of a batch is accounted for: results plus errors exhaust the
input. -/
theorem process_batch_total (l : List (HiRow × Option InvResult)) :
    (process_hi_trans_batch l).1.length + (process_hi_trans_batch l).2 =
      l.length := by
  induction l with
  | nil => simp [process_hi_trans_batch]
  | cons hd tl ih =>
    obtain ⟨row, oc⟩ := hd
    cases oc <;> simp [process_hi_trans_batch] <;> omega

/-- C8: a failure while processing a single case never aborts the batch run:
inserting one failing case anywhere leaves the result list (hence every
accuracy metric and every metric denominator, computed from that list alone)
unchanged, increments the error counter by exactly one, and every remaining
case is still processed and counted (results plus errors exhaust the
batch). -/
theorem C8_single_failure_isolated (l1 l2 : List (HiRow × Option InvResult))
    (row : HiRow) :
    (process_hi_trans_batch (l1 ++ (row, none) :: l2)).1 =
      (process_hi_trans_batch (l1 ++ l2)).1
    ∧ (process_hi_trans_batch (l1 ++ (row, none) :: l2)).2 =
      (process_hi_trans_batch (l1 ++ l2)).2 + 1
    ∧ calculate_accuracy_metrics
        (process_hi_trans_batch (l1 ++ (row, none) :: l2)).1 =
      calculate_accuracy_metrics (process_hi_trans_batch (l1 ++ l2)).1
    ∧ (process_hi_trans_batch (l1 ++ (row, none) :: l2)).1.length +
        (process_hi_trans_batch (l1 ++ (row, none) :: l2)).2 =
      (l1 ++ (row, none) :: l2).length := by
  have hres : (process_hi_trans_batch (l1 ++ (row, none) :: l2)).1 =
      (process_hi_trans_batch (l1 ++ l2)).1 := by
    rw [process_results_append, process_results_append]
    simp [process_hi_trans_batch]
  refine ⟨hres, ?_, congrArg calculate_accuracy_metrics hres,
    process_batch_total _⟩
  rw [process_errors_append, process_errors_append]
  simp [process_hi_trans_batch]
  omega

/-- The source grouping loop always keeps the first transaction of the
current group as the window anchor, so it equals the amended chaining that
carries the window start explicitly. -/
theorem group_go_eq_amended (w : Int) (rest : List STx) (start : STx)
    (tail : List STx) :
    group_go w (start :: tail) rest = amended_chain_go w start (start :: tail)
      rest := by
  induction rest generalizing start tail with
  | nil => rfl
  | cons tx r ih =>
    simp only [group_go, amended_chain_go]
    split
    · rw [List.cons_append]
      exact ih start (tail ++ [tx])
    · rw [ih tx []]

/-- The source window decomposition equals the amended-claim one. -/
theorem group_by_eq_amended (transactions : List STx)
    (time_window_hours : Int) :
    group_by_time_window transactions time_window_hours =
      amended_windows transactions time_window_hours := by
  unfold group_by_time_window amended_windows
  cases sorted_by_date transactions with
  | nil => rfl
  | cons t rest => exact group_go_eq_amended _ _ _ _

/-- On a window of at least 3 transactions the source coordination score
equals the claim's weighted indicator sum (the length guard is inactive and
the cap at 1 never binds, the three weights summing to 1). -/
theorem coordination_score_eq (g : List STx) (h : 3 ≤ g.length) :
    calculate_coordination_score g = claim_coordination_score g := by
  simp only [calculate_coordination_score, claim_coordination_score]
  rw [if_neg (by omega : ¬ g.length < 2)]
  rw [if_pos (by simp; omega :
    1 < (g.map (fun tx => tx.amount.getD 0)).length)]
  split_ifs <;> norm_num [min_def]

/-- The coordinated-group score list of the source equals the claim's
filter-map-filter pipeline over the same windows. -/
theorem coordinated_scores_eq (ws : List (List STx)) :
    coordinated_group_scores ws =
      ((ws.filter (fun g => 3 ≤ g.length)).map
        claim_coordination_score).filter (fun sc => (0.6 : Rat) < sc) := by
  unfold coordinated_group_scores
  congr 1
  refine List.map_congr_left ?_
  intro g hg
  exact coordination_score_eq g
    (by exact_mod_cast of_decide_eq_true (List.mem_filter.mp hg).2)

/-- The source smurfing score written in the claim's operand order. -/
theorem smurfing_score_comm (scores : List Rat) :
    calculate_smurfing_score scores =
      (if scores = [] then 0
       else 0.7 * (scores.sum / scores.length)
         + 0.3 * min 1 ((scores.length : Rat) / 3)) := by
  simp only [calculate_smurfing_score]
  split
  · rfl
  · ring

/-- C6 counterexample: three same-recipient, same-amount transactions at
hours 0, 20 and 40.  Chaining by inter-arrival gap (each gap is 20h, within
the 24h window) puts all three in one window, which is coordinated with
score 1, giving smurfing score 0.8 > 0.7, so the claim detects smurfing; the
code anchors the window at its first transaction, splits the three into
windows of sizes 2 and 1, finds no coordinated window and does not
detect. -/
theorem C6_counterexample :
    detect_smurfing_patterns c6_txs 24 = false
    ∧ claim_smurfing_detected c6_txs 24 = true := by
  constructor
  · have hg : group_by_time_window c6_txs 24 =
        [[c6_txs.get ⟨0, by decide⟩, c6_txs.get ⟨1, by decide⟩],
         [c6_txs.get ⟨2, by decide⟩]] := by decide
    simp only [detect_smurfing_patterns, hg]
    have hsc : coordinated_group_scores
        [[c6_txs.get ⟨0, by decide⟩, c6_txs.get ⟨1, by decide⟩],
         [c6_txs.get ⟨2, by decide⟩]] = [] := by decide
    rw [hsc]
    norm_num [calculate_smurfing_score]
  · have hg : claim_windows_by_gap c6_txs 24 = [c6_txs] := by decide
    simp only [claim_smurfing_detected, hg]
    have hone : claim_coordination_score c6_txs = 1 := by
      norm_num [claim_coordination_score, c6_txs, populationVariance,
        listMean, List.dedup]
    simp only [claim_smurfing_verdict, c6_txs]
    norm_num [hone, claim_coordination_score, c6_txs, populationVariance,
      listMean, List.dedup, min_def]

/-- C6 amended: smurfing detection behaves exactly as claimed - windows of
at least 3 transactions scored by the weighted indicator sum, coordinated
above 0.6, smurfing score 0.7 x mean + 0.3 x min(1, count / 3), detection
above 0.7 - except that the disjoint windows chain each transaction against
the FIRST transaction of its window (not the inter-arrival gap to its
predecessor). -/
theorem C6_amended (related_transactions : List STx)
    (time_window_hours : Int) :
    detect_smurfing_patterns related_transactions time_window_hours =
      claim_smurfing_verdict
        (amended_windows related_transactions time_window_hours) := by
  simp only [detect_smurfing_patterns, claim_smurfing_verdict,
    ← group_by_eq_amended, ← coordinated_scores_eq, gt_iff_lt,
    smurfing_score_comm]

/-- Every node appends exactly its own step name to decision_path. -/
theorem applyStage_decision_path (o : Oracle) (st : Stage) (s : AMLState) :
    (applyStage o st s).decision_path =
      s.decision_path ++ [stageName st] := by
  cases st <;>
    simp [applyStage, update_path, stageName, crypto_risk_analysis,
      geographic_risk_assessment, document_analysis, behavioral_analysis,
      sanctions_screening, pep_screening, enhanced_due_diligence,
      risk_scoring, generate_sar, human_review] <;>
    split <;> rfl

/-- The initial_screening edge map only targets stages after the entry. -/
theorem initial_edge_pos (label : String) :
    0 < stageIdx (initial_screening_edge label) := by
  unfold initial_screening_edge
  split_ifs <;> simp [stageIdx]

/-- The crypto_analysis edge map only targets later stages. -/
theorem crypto_edge_gt (label : String) :
    1 < stageIdx (crypto_analysis_edge label) := by
  unfold crypto_analysis_edge
  split_ifs <;> simp [stageIdx]

/-- The sanctions_check edge map only targets later stages. -/
theorem sanctions_edge_gt (label : String) :
    5 < stageIdx (sanctions_check_edge label) := by
  unfold sanctions_check_edge
  split_ifs <;> simp [stageIdx]

/-- The pep_check edge map only targets later stages. -/
theorem pep_edge_gt (label : String) :
    6 < stageIdx (pep_check_edge label) := by
  unfold pep_check_edge
  split_ifs <;> simp [stageIdx]

/-- The score_risk edge map only targets later stages. -/
theorem score_edge_gt (label : String) (st' : Stage)
    (h : score_risk_edge label = some st') : 8 < stageIdx st' := by
  unfold score_risk_edge at h
  split_ifs at h
  · injection h with h
    subst h
    decide
  · injection h with h
    subst h
    decide

/-- Acyclicity: every transition of the routing graph strictly increases the
stage numbering, whatever the state. -/
theorem nextStage_lt (st st' : Stage) (s : AMLState)
    (h : nextStage st s = some st') : stageIdx st < stageIdx st' := by
  cases st <;> simp only [nextStage, Option.some.injEq] at h
  case initial_screening => rw [← h]; exact initial_edge_pos _
  case crypto_analysis => rw [← h]; exact crypto_edge_gt _
  case geo_analysis => rw [← h]; decide
  case document_check => rw [← h]; decide
  case behavior_check => rw [← h]; decide
  case sanctions_check => rw [← h]; exact sanctions_edge_gt _
  case pep_check => rw [← h]; exact pep_edge_gt _
  case edd => rw [← h]; decide
  case score_risk => exact score_edge_gt _ _ h
  case generate_sar => exact Option.noConfusion h
  case human_review => exact Option.noConfusion h

/-- The visited-stage trace of a run is strictly increasing in the stage
numbering, and every visited stage is at or after the starting one. -/
theorem runFrom_trace (o : Oracle) : ∀ (fuel : Nat) (st : Stage)
    (s : AMLState),
    List.Pairwise (fun a b => stageIdx a < stageIdx b)
      (runFrom o fuel st s).2 ∧
    ∀ x ∈ (runFrom o fuel st s).2, stageIdx st ≤ stageIdx x := by
  intro fuel
  induction fuel with
  | zero => intro st s; simp [runFrom]
  | succ n ih =>
    intro st s
    simp only [runFrom]
    cases hnext : nextStage st (applyStage o st s) with
    | none => simp
    | some st' =>
      have hlt := nextStage_lt st st' _ hnext
      obtain ⟨hp, hb⟩ := ih st' (applyStage o st s)
      refine ⟨List.Pairwise.cons ?_ hp, ?_⟩
      · intro x hx
        exact lt_of_lt_of_le hlt (hb x hx)
      · intro x hx
        rcases List.mem_cons.mp hx with rfl | hx
        · exact le_refl _
        · exact le_of_lt (lt_of_lt_of_le hlt (hb x hx))

/-- decision_path after a run is the incoming path extended by the step
names of the visited stages, in order. -/
theorem runFrom_decision_path (o : Oracle) : ∀ (fuel : Nat) (st : Stage)
    (s : AMLState),
    (runFrom o fuel st s).1.decision_path =
      s.decision_path ++ ((runFrom o fuel st s).2.map stageName) := by
  intro fuel
  induction fuel with
  | zero => intro st s; simp [runFrom]
  | succ n ih =>
    intro st s
    simp only [runFrom]
    cases hnext : nextStage st (applyStage o st s) with
    | none => simp [applyStage_decision_path]
    | some st' =>
      simp only [List.map_cons]
      rw [ih st' (applyStage o st s), applyStage_decision_path,
        List.append_assoc]
      rfl

/-- The eleven step names are pairwise distinct. -/
theorem stageName_injective : Function.Injective stageName := by
  intro a b h
  cases a <;> cases b <;> first | rfl | simp [stageName] at h

/-- C2: for every input transaction, customer and document list (and
whatever the external analyzers answer), an execution of the state machine
from initial_screening visits each stage at most once - the visited-stage
trace has no duplicates - and consequently no step name already recorded in
decision_path is ever appended again. -/
theorem C2_no_stage_revisited (o : Oracle) (fuel : Nat) (tx : Tx)
    (customer : Customer) (documents : List String) :
    (pipelineRun o fuel tx customer documents).2.Nodup
    ∧ (pipelineRun o fuel tx customer documents).1.decision_path.Nodup := by
  have htr := (runFrom_trace o fuel .initial_screening
    (initial_state tx customer documents)).1
  have hnd : (pipelineRun o fuel tx customer documents).2.Nodup :=
    htr.imp (fun hab heq => absurd (heq ▸ hab) (lt_irrefl _))
  refine ⟨hnd, ?_⟩
  have hpath := runFrom_decision_path o fuel .initial_screening
    (initial_state tx customer documents)
  have hinit : (initial_state tx customer documents).decision_path = [] :=
    rfl
  rw [hinit, List.nil_append] at hpath
  rw [show (pipelineRun o fuel tx customer documents).1 =
    (runFrom o fuel .initial_screening
      (initial_state tx customer documents)).1 from rfl, hpath]
  exact hnd.map stageName_injective

/-- A non-terminal stage neither assigns a case id nor a reporting status
nor a review deadline. -/
theorem applyStage_preTerminal (o : Oracle) (st : Stage) (s : AMLState)
    (h1 : st ≠ .generate_sar) (h2 : st ≠ .human_review)
    (h : preTerminal s) : preTerminal (applyStage o st s) := by
  obtain ⟨hc, hr, hd⟩ := h
  cases st <;>
    simp_all [applyStage, update_path, preTerminal, crypto_risk_analysis,
      geographic_risk_assessment, document_analysis, behavioral_analysis,
      sanctions_screening, pep_screening, enhanced_due_diligence,
      risk_scoring] <;>
    split <;> simp_all

/-- Terminal-state trichotomy of a run started in a pre-terminal state:
either no disposition was reached (no case id, no status), or a SAR was
filed (case id assigned together with status SAR_FILED), or the case went to
human review (no case id, status HUMAN_REVIEW, deadline now + 24h). -/
theorem runFrom_trichotomy (o : Oracle) : ∀ (fuel : Nat) (st : Stage)
    (s : AMLState), preTerminal s →
    ((runFrom o fuel st s).1.case_id = none ∧
      (runFrom o fuel st s).1.reporting_status = none) ∨
    ((runFrom o fuel st s).1.case_id = some o.caseId ∧
      (runFrom o fuel st s).1.reporting_status = some "SAR_FILED") ∨
    ((runFrom o fuel st s).1.case_id = none ∧
      (runFrom o fuel st s).1.reporting_status = some "HUMAN_REVIEW" ∧
      (runFrom o fuel st s).1.review_deadline = some (o.now + 24 * 3600)) := by
  intro fuel
  induction fuel with
  | zero => intro st s h; exact Or.inl ⟨h.1, h.2.1⟩
  | succ n ih =>
    intro st s h
    by_cases hsar : st = .generate_sar
    · subst hsar
      refine Or.inr (Or.inl ?_)
      simp [runFrom, nextStage, applyStage, generate_sar, update_path]
    · by_cases hrev : st = .human_review
      · subst hrev
        refine Or.inr (Or.inr ?_)
        simp [runFrom, nextStage, applyStage, human_review, update_path]
        exact h.1
      · have hpre := applyStage_preTerminal o st s hsar hrev h
        simp only [runFrom]
        cases hnext : nextStage st (applyStage o st s) with
        | none => exact Or.inl ⟨hpre.1, hpre.2.1⟩
        | some st' => exact ih st' _ hpre

/-- C10: in every terminal state of the pipeline, a case id is present
exactly when the reporting status is SAR_FILED (only generate_sar assigns
one), so the result is stored in the global investigation-results index
exactly for SAR-filed cases; a case ending in human review carries no case
id, status HUMAN_REVIEW and the 24-hour review deadline. -/
theorem C10_case_id_iff_sar (o : Oracle) (fuel : Nat) (tx : Tx)
    (customer : Customer) (documents : List String)
    (hcid : o.caseId ≠ "") :
    ((pipelineRun o fuel tx customer documents).1.case_id.isSome ↔
      (pipelineRun o fuel tx customer documents).1.reporting_status =
        some "SAR_FILED")
    ∧ (storesResult (pipelineRun o fuel tx customer documents).1 = true ↔
      (pipelineRun o fuel tx customer documents).1.reporting_status =
        some "SAR_FILED")
    ∧ ((pipelineRun o fuel tx customer documents).1.reporting_status =
        some "HUMAN_REVIEW" →
      (pipelineRun o fuel tx customer documents).1.case_id = none ∧
      (pipelineRun o fuel tx customer documents).1.review_deadline =
        some (o.now + 24 * 3600)) := by
  have htri := runFrom_trichotomy o fuel .initial_screening
    (initial_state tx customer documents) ⟨rfl, rfl, rfl⟩
  rcases htri with ⟨h1, h2⟩ | ⟨h1, h2⟩ | ⟨h1, h2, h3⟩ <;>
    refine ⟨?_, ?_, ?_⟩ <;>
    simp_all [pipelineRun, storesResult]

/-- Witness for C10 at a concrete run: the default transaction, customer and
oracle (case id "abcdef012345", so nonempty), fuel 12. -/
theorem C10_case_id_iff_sar_witness :
    witnessOracle.caseId ≠ ""
    ∧ (((pipelineRun witnessOracle 12 {} {} []).1.case_id.isSome ↔
        (pipelineRun witnessOracle 12 {} {} []).1.reporting_status =
          some "SAR_FILED")
      ∧ (storesResult (pipelineRun witnessOracle 12 {} {} []).1 = true ↔
        (pipelineRun witnessOracle 12 {} {} []).1.reporting_status =
          some "SAR_FILED")
      ∧ ((pipelineRun witnessOracle 12 {} {} []).1.reporting_status =
          some "HUMAN_REVIEW" →
        (pipelineRun witnessOracle 12 {} {} []).1.case_id = none ∧
        (pipelineRun witnessOracle 12 {} {} []).1.review_deadline =
          some (witnessOracle.now + 24 * 3600))) :=
  ⟨by decide, C10_case_id_iff_sar witnessOracle 12 {} {} [] (by decide)⟩

end AMLSpec
